import Mathlib

/-
  Verification of the shouldcallpaul-api prayer backend.

  Shallow embedding of the code paths relevant to the idempotent-write and
  notification fan-out core: the /prayFor handler, the mailerSendSingle
  email helper and the FCM sendPushNotification helper (all from
  src/server.js), the Expo sendPushNotification helper (from
  src/pushNotifications.js), the /sendBroadcastEmail throttled loop
  (src/server.js), and the marker-file idempotency guard of
  handleCreateRequestAndPrayer (src/server.js).

  JavaScript specifics kept in the model: falsiness of absent / zero /
  empty-string parameters, the optional-chaining guards on the enrichment
  row, and the mapping of PostgreSQL error code 23505 to the
  already-prayed response while every other error maps to a generic 500.
-/

namespace SCP

/-- JS truthiness of a possibly absent numeric parameter: `!params[p]`
rejects both an absent value and the number 0. -/
def jsTruthyNat : Option Nat → Bool
  | none => false
  | some n => n != 0

/-- JS truthiness of a possibly absent string value: absent and the empty
string are falsy. -/
def jsTruthyStr : Option String → Bool
  | none => false
  | some s => !s.isEmpty

/-- JS truthiness of a nullable boolean column: only a stored true is truthy. -/
def jsTruthyOptBool : Option Bool → Bool :=
  fun b => b == some true

/-- A row of the public."user" table, restricted to the columns the
/prayFor flow reads (src/server.js lines 1048-1070). -/
structure UserRow where
  userId : Nat
  realName : String
  email : Option String
  fcmToken : Option String
deriving DecidableEq

/-- Modelled from the spec: the settings table holding the per-user
notification preferences (wants-email, wants-push).  The bootstrap DDL
bundled after src/pushNotifications.js declares settings as a key-value
table without a user_id column, which contradicts the joins in
src/server.js lines 1056-1061; the live per-user shape is taken from the
spec data model (section 3, User: notification preferences) and from the
columns server.js reads: settings.prayer_emails, settings.push_notifications. -/
structure SettingsRow where
  userId : Nat
  prayerEmails : Option Bool
  pushNotifications : Option Bool
deriving DecidableEq

/-- A row of the public.request table, restricted to the columns the
/prayFor flow reads. -/
structure RequestRow where
  requestId : Nat
  userId : Nat
  requestText : String
  requestTitle : String
deriving DecidableEq

/-- A row of public.user_request: the PrayerRecord join fact
(request_id, user_id, timestamp), as inserted by src/server.js lines
1038-1044 and by the import scripts in the repository. -/
structure UserRequestRow where
  requestId : Nat
  userId : Nat
  timestamp : Nat
deriving DecidableEq

/-- The slice of the Durable Store the core touches. -/
structure DB where
  users : List UserRow
  settings : List SettingsRow
  requests : List RequestRow
  userRequest : List UserRequestRow
deriving DecidableEq

/-- PostgreSQL error classes the handlers branch on: 23505 is the unique
violation the /prayFor catch block checks for; 23503 (foreign key
violation) and everything else fall into the generic branch. -/
inductive PgError where
  | uniqueViolation
  | fkViolation
  | otherError
deriving DecidableEq

/-- True when a PrayerRecord row for the pair already exists. -/
def pairExists (db : DB) (rid uid : Nat) : Bool :=
  db.userRequest.any (fun r => r.requestId == rid && r.userId == uid)

/-- True when the request row exists. -/
def requestExists (db : DB) (rid : Nat) : Bool :=
  db.requests.any (fun r => r.requestId == rid)

/-- True when the user row exists. -/
def userExists (db : DB) (uid : Nat) : Bool :=
  db.users.any (fun u => u.userId == uid)

/-- Number of PrayerRecord rows for a given (request, user) pair. -/
def countPair (db : DB) (rid uid : Nat) : Nat :=
  db.userRequest.countP (fun r => r.requestId == rid && r.userId == uid)

/-- Modelled from the spec: the atomic INSERT into public.user_request.
The live production schema is not part of src/: the bootstrap DDL bundled
after src/pushNotifications.js is stale (its user_request has no
timestamp column, yet the INSERT in src/server.js lines 1038-1044 and
the data-import scripts write one), so the uniqueness constraint on
(request_id, user_id) is modelled from the spec (sections 3 and 6), which
matches the 23505 branch of the handler.  The two foreign keys are the
ones the bundled DDL declares for user_request.  A unique violation is
raised before foreign-key triggers fire. -/
def insertUserRequest (db : DB) (rid uid ts : Nat) : Except PgError DB :=
  if pairExists db rid uid then .error .uniqueViolation
  else if !requestExists db rid then .error .fkViolation
  else if !userExists db uid then .error .fkViolation
  else .ok { db with userRequest := db.userRequest ++ [⟨rid, uid, ts⟩] }

/-- Sender or recipient of an email, as (email, name). -/
structure Person where
  email : String
  name : String
deriving DecidableEq

/-- The EmailParams object mailerSendSingle builds (src/server.js lines
140-147). -/
structure EmailParamsModel where
  fromSender : Person
  toRecipients : List Person
  bcc : List Person
  replyTo : Person
  subject : String
  html : String
  text : String
deriving DecidableEq

/-- The JSON-shaped value mailerSendSingle resolves with. -/
structure MailResult where
  error : Nat
  result : String
deriving DecidableEq

/-- Outcome of one call to the email provider. -/
inductive EmailProviderOutcome where
  | sent
  | failed (msg : String)
deriving DecidableEq

/-- True when the provider accepted the send. -/
def emailOk : EmailProviderOutcome → Bool
  | .sent => true
  | .failed _ => false

/-- Embeds mailerSendSingle (src/server.js lines 127-164).  The provider
call is the only external effect; its outcome is an explicit argument.
The res parameter of the source only mirrors the returned value into the
HTTP response and is dropped.  Returns the EmailParams that were built
(so the BCC list is observable) together with the resolved value. -/
def mailerSendSingle (template : String) (fromPerson toPerson : Person)
    (subject : String) (extraResult : Option String)
    (outcome : EmailProviderOutcome) : EmailParamsModel × MailResult :=
  let recipients := [toPerson]
  let bcc :=
    if toPerson.email == "programmerpauly@gmail.com" then ([] : List Person)
    else [⟨"programmerpauly@gmail.com", "Programmer Pauly"⟩]
  let emailParams : EmailParamsModel :=
    ⟨fromPerson, recipients, bcc, fromPerson, subject, template,
      "Email from PrayOverUs.com"⟩
  let extraResultMessage :=
    match extraResult with
    | some s => "|" ++ s
    | none => ""
  match outcome with
  | .sent =>
      (emailParams,
        ⟨0, "email sent from " ++ fromPerson.email ++ " to " ++
          toPerson.email ++ extraResultMessage⟩)
  | .failed msg => (emailParams, ⟨1, msg⟩)

/-- Outcome of one call to the Firebase Cloud Messaging provider: either
the message is accepted, or the SDK throws an error carrying a code. -/
inductive FcmOutcome where
  | delivered
  | thrown (code : String) (msg : String)
deriving DecidableEq

/-- True when the provider accepted the message. -/
def fcmDelivered : FcmOutcome → Bool
  | .delivered => true
  | .thrown _ _ => false

/-- The value the FCM sendPushNotification resolves with; shouldRemoveToken
is false when the source object omits the field. -/
structure PushSendResult where
  error : Nat
  result : String
  shouldRemoveToken : Bool
deriving DecidableEq

/-- Embeds the FCM sendPushNotification (src/server.js lines 167-217):
not-initialized and missing-token guards, then the provider call; a
thrown error whose code is one of the two permanent registration-token
codes yields shouldRemoveToken true, every other error yields a plain
failure. -/
def sendPushNotification (firebaseInitialized : Bool)
    (fcmToken : Option String) (outcome : FcmOutcome) : PushSendResult :=
  if !firebaseInitialized then ⟨1, "Firebase not initialized", false⟩
  else if !jsTruthyStr fcmToken then ⟨1, "No FCM token provided", false⟩
  else
    match outcome with
    | .delivered => ⟨0, "Push notification sent", false⟩
    | .thrown code msg =>
        if code == "messaging/invalid-registration-token" ||
            code == "messaging/registration-token-not-registered" then
          ⟨1, "Invalid token", true⟩
        else ⟨1, msg, false⟩

/-- True when the FCM outcome is one of the two permanent
invalid-registration-token errors. -/
def isPermanentFcm : FcmOutcome → Bool
  | .delivered => false
  | .thrown code _ =>
      code == "messaging/invalid-registration-token" ||
        code == "messaging/registration-token-not-registered"

/-- The enrichment row the /prayFor handler reads after the insert: a join
of request, user and settings on the request id (src/server.js lines
1048-1063). -/
structure OwnerInfo where
  userId : Nat
  realName : String
  email : Option String
  fcmToken : Option String
  requestText : String
  prayerEmails : Option Bool
  pushNotifications : Option Bool
deriving DecidableEq

/-- The user and settings legs of the requestOwnerQuery join, for a found
request row. -/
def ownerJoin (db : DB) (r : RequestRow) : Option OwnerInfo :=
  match db.users.find? (fun u => u.userId == r.userId),
      db.settings.find? (fun s => s.userId == r.userId) with
  | some u, some s =>
      some ⟨u.userId, u.realName, u.email, u.fcmToken, r.requestText,
        s.prayerEmails, s.pushNotifications⟩
  | _, _ => none

/-- Embeds the requestOwnerQuery join: requestOwnerResult.rows[0] is
present exactly when the request row and both joined rows exist. -/
def ownerLookup (db : DB) (rid : Nat) : Option OwnerInfo :=
  match db.requests.find? (fun r => r.requestId == rid) with
  | none => none
  | some r => ownerJoin db r

/-- The UPDATE that clears the fcm_token of a user (src/server.js lines
1147-1150). -/
def eraseToken (db : DB) (uid : Nat) : DB :=
  { db with
      users := db.users.map
        (fun u => if u.userId == uid then { u with fcmToken := none } else u) }

/-- Environment of one /prayFor invocation: the clock and the outcomes of
the two notification provider calls, should they be attempted. -/
structure PrayForEnv where
  now : Nat
  firebaseInitialized : Bool
  emailOutcome : EmailProviderOutcome
  pushOutcome : FcmOutcome

/-- Response shapes of the /prayFor handler. -/
inductive PrayForResponse where
  | missingParam (name : String)
  | success (emailSent pushSent : Bool)
  | failedToRecord
  | alreadyPrayed
  | internalError
deriving DecidableEq

/-- The interpolated content of the prayer-notification email template
(src/server.js lines 1085-1101); the static HTML wrapper is elided, none
of the claims concerns the markup. -/
def prayerEmailTemplate (ownerName userName requestText : String) : String :=
  "Someone prayed for your request! Dear " ++ ownerName ++ ", " ++
    userName ++ " just prayed for your prayer request: " ++ requestText

/-- The fixed sender of prayer notification emails. -/
def prayOverUsFrom : Person :=
  ⟨"paul@prayoverus.com", "PrayOverUs"⟩

/-- Steps 4 and 5 of the /prayFor handler for a present enrichment row:
attempt the email when prayer_emails and the address are truthy, attempt
the push when push_notifications is not stored-false and a token is
present, erase the token when the push helper says so.  Returns
(emailSent, pushSent, final store). -/
def prayForNotify (db1 : DB) (o : OwnerInfo) (uid : Nat)
    (env : PrayForEnv) : Bool × Bool × DB :=
  let userWhoPrayedName :=
    (((db1.users.find? (fun u => u.userId == uid)).map
      (fun u => u.realName)).getD "")
  let emailResult : Option MailResult :=
    if jsTruthyOptBool o.prayerEmails && jsTruthyStr o.email then
      some (mailerSendSingle
        (prayerEmailTemplate o.realName userWhoPrayedName o.requestText)
        prayOverUsFrom ⟨o.email.getD "", o.realName⟩
        (userWhoPrayedName ++ " prayed for your request") none
        env.emailOutcome).2
    else none
  let pushResult : Option PushSendResult :=
    if (o.pushNotifications != some false) && jsTruthyStr o.fcmToken then
      some (sendPushNotification env.firebaseInitialized o.fcmToken
        env.pushOutcome)
    else none
  let db2 : DB :=
    match pushResult with
    | some pr => if pr.shouldRemoveToken then eraseToken db1 o.userId else db1
    | none => db1
  ((match emailResult with
    | some r => r.error == 0
    | none => false),
   (match pushResult with
    | some r => r.error == 0
    | none => false),
   db2)

/-- The /prayFor handler after parameter validation (src/server.js lines
1038-1193): the atomic INSERT decides the outcome; on success the
enrichment row is read and the notifications are attempted, and the
response is the success shape carrying emailSent and pushSent; a 23505
unique violation maps to the already-prayed response; any other thrown
error maps to the generic 500. -/
def prayForOk (db1 : DB) (env : PrayForEnv) (rid uid : Nat) :
    PrayForResponse × DB :=
  match ownerLookup db1 rid with
  | none => (.success false false, db1)
  | some o =>
      let n := prayForNotify db1 o uid env
      (.success n.1 n.2.1, n.2.2)

def prayForCore (db : DB) (env : PrayForEnv) (rid uid : Nat) :
    PrayForResponse × DB :=
  match insertUserRequest db rid uid env.now with
  | .error .uniqueViolation => (.alreadyPrayed, db)
  | .error .fkViolation => (.internalError, db)
  | .error .otherError => (.internalError, db)
  | .ok db1 => prayForOk db1 env rid uid

/-- The full /prayFor handler (src/server.js lines 1024-1194), including
the falsy-parameter validation loop over requestId and userId. -/
def prayFor (db : DB) (env : PrayForEnv) (requestId userId : Option Nat) :
    PrayForResponse × DB :=
  if !jsTruthyNat requestId then (.missingParam "requestId", db)
  else if !jsTruthyNat userId then (.missingParam "userId", db)
  else prayForCore db env (requestId.getD 0) (userId.getD 0)

/-- Modelled from the spec: two concurrent /prayFor invocations for the
same pair.  The only store mutation of an invocation is its single atomic
INSERT (spec sections 4.2 and 5: row-level atomicity, no application-level
locking), so every interleaving of the two invocations is equivalent to
running them in the order in which the store serializes their inserts;
aFirst picks that serialization order.  Returns the two responses (in
invocation order) and the final store. -/
def runConcurrentPair (db : DB) (envA envB : PrayForEnv) (rid uid : Nat)
    (aFirst : Bool) : (PrayForResponse × PrayForResponse) × DB :=
  if aFirst then
    let a := prayFor db envA (some rid) (some uid)
    let b := prayFor a.2 envB (some rid) (some uid)
    ((a.1, b.1), b.2)
  else
    let b := prayFor db envB (some rid) (some uid)
    let a := prayFor b.2 envA (some rid) (some uid)
    ((a.1, b.1), a.2)

/-- The marker files of the idempotency guard: one entry per existing
file, as (file key, creation time in milliseconds). -/
structure GuardState where
  files : List (String × Nat)
deriving DecidableEq

/-- The fs.existsSync check on the marker file for a key
(src/server.js line 1576): a bare existence test, with no age component. -/
def guardFileExists (g : GuardState) (key : String) : Bool :=
  g.files.any (fun f => f.1 == key)

/-- Deletes the marker file for a key (fs.unlink, src/server.js line 1860). -/
def guardDelete (g : GuardState) (key : String) : GuardState :=
  ⟨g.files.filter (fun f => f.1 != key)⟩

/-- Decision of the guard prologue of handleCreateRequestAndPrayer. -/
inductive GuardDecision where
  | accepted
  | rejectedExists
deriving DecidableEq

/-- Embeds the guard prologue (src/server.js lines 1573-1587): reject when
the marker file for the key exists, otherwise write it.  The existence
check is the only test; entries are never aged out. -/
def beginOperation (g : GuardState) (key : String) (now : Nat) :
    GuardDecision × GuardState :=
  if guardFileExists g key then (.rejectedExists, g)
  else (.accepted, ⟨g.files ++ [(key, now)]⟩)

/-- Parameters of a createRequestAndPrayer call, restricted to the key and
the four required parameters the handler validates (src/server.js line
1595); absent and falsy values coincide. -/
structure CreateParams where
  idempotencyKey : String
  userId : Option Nat
  requestText : Option String
  requestTitle : Option String
  sendEmail : Option String

/-- Environment of one createRequestAndPrayer run: the clock and the
outcomes of the external steps, in the order the handler reaches them. -/
structure CreateEnv where
  now : Nat
  writeOk : Bool
  insertRequestOk : Bool
  userFound : Option String
  chatOk : Option String
  prayerInsertOk : Bool
  updateOk : Bool
  adminEmailOutcome : EmailProviderOutcome

/-- Terminal outcomes of handleCreateRequestAndPrayer, one per response
site in the source. -/
inductive CreateOutcome where
  | keyExists
  | writeError
  | missingParam (p : String)
  | userNotFound
  | prayerGenFailed
  | dbError
  | success
deriving DecidableEq

/-- True exactly for the success outcome. -/
def createSucceeded : CreateOutcome → Bool
  | .success => true
  | _ => false

/-- Embeds the control flow of handleCreateRequestAndPrayer
(src/server.js lines 1530-1882) as far as it touches the idempotency
marker file.  Source path order: existence check and file write first,
then the required-parameter validation, the request INSERT (a throw lands
in the outer catch, which deletes only the uploaded image), the user
lookup, the inner try holding the prayer generation call, the prayer
INSERT and the request UPDATE (throws land in the prayer-generation
catch), and only then, after the success response, the unlink of the
marker file.  No failure path unlinks it. -/
def handleCreateRequestAndPrayer (g : GuardState) (p : CreateParams)
    (env : CreateEnv) : CreateOutcome × GuardState :=
  match beginOperation g p.idempotencyKey env.now with
  | (.rejectedExists, g0) => (.keyExists, g0)
  | (.accepted, g1) =>
      if !env.writeOk then (.writeError, g)
      else if !jsTruthyNat p.userId then (.missingParam "userId", g1)
      else if !jsTruthyStr p.requestText then (.missingParam "requestText", g1)
      else if !jsTruthyStr p.requestTitle then
        (.missingParam "requestTitle", g1)
      else if !jsTruthyStr p.sendEmail then (.missingParam "sendEmail", g1)
      else if !env.insertRequestOk then (.dbError, g1)
      else
        match env.userFound with
        | none => (.userNotFound, g1)
        | some _realName =>
            match env.chatOk with
            | none => (.prayerGenFailed, g1)
            | some _prayer =>
                if !env.prayerInsertOk then (.prayerGenFailed, g1)
                else if !env.updateOk then (.prayerGenFailed, g1)
                else (.success, guardDelete g1 p.idempotencyKey)

/-- Events of the broadcast email loop: a send attempt (true when the
provider accepted it) or a sleep of the given number of milliseconds. -/
inductive BEvent where
  | send (ok : Bool)
  | delay (ms : Nat)
deriving DecidableEq

/-- True for send events. -/
def isSendEvent : BEvent → Bool
  | .send _ => true
  | .delay _ => false

/-- Embeds the /sendBroadcastEmail loop (src/server.js lines 2510-2562)
over the per-recipient provider outcomes: every recipient is attempted in
order; a success increments successCount, a caught failure increments
failCount; after each send except the last the loop sleeps 600
milliseconds, in the success branch and in the catch branch alike.
Returns the event trace and (successCount, failCount). -/
def sendBroadcastLoop : List Bool → List BEvent × Nat × Nat
  | [] => ([], 0, 0)
  | o :: rest =>
      let r := sendBroadcastLoop rest
      (if rest.isEmpty then [.send o] else .send o :: .delay 600 :: r.1,
        (if o then 1 else 0) + r.2.1,
        (if o then 0 else 1) + r.2.2)

/-- Phases of the receipt poll of the Expo push helper. -/
inductive ExpoReceiptPhase where
  | fetchThrew (msg : String)
  | noReceipt
  | receipt (status : String) (detailsError : Option String)
      (message : Option String)
deriving DecidableEq

/-- Outcome of the Expo submission call. -/
inductive ExpoSendOutcome where
  | sendThrew (msg : String)
  | ticketError (detailsError : Option String) (message : Option String)
  | ticketOk (ticketId : String) (phase : ExpoReceiptPhase)
deriving DecidableEq

/-- The value the Expo sendPushNotification resolves with. -/
structure ExpoPushResult where
  success : Bool
  shouldRemoveToken : Bool
  error : Option String
  ticketId : Option String
  receiptStatus : Option String
deriving DecidableEq

/-- Externally visible steps of the Expo push helper. -/
inductive ExpoEvent where
  | submit
  | wait (ms : Nat)
  | pollReceipts
deriving DecidableEq

/-- Embeds the Expo sendPushNotification
(src/pushNotifications.js lines 14-138): token-format gate, submission,
then on an accepted ticket a fixed 1000 millisecond wait followed by one
receipt poll.  A missing receipt resolves success with receiptStatus
pending; a throwing receipt fetch resolves success with receiptStatus
unknown; a receipt with status error resolves failure, removing the token
exactly when the receipt reports DeviceNotRegistered.  Returns the
resolved value and the event trace. -/
def expoSendPushNotification (isValidExpoToken : Bool)
    (outcome : ExpoSendOutcome) : ExpoPushResult × List ExpoEvent :=
  if !isValidExpoToken then
    (⟨false, true, some "Invalid Expo push token format", none, none⟩, [])
  else
    match outcome with
    | .sendThrew msg => (⟨false, false, some msg, none, none⟩, [.submit])
    | .ticketError de msg =>
        if de == some "DeviceNotRegistered" then
          (⟨false, true, some "DeviceNotRegistered", none, none⟩, [.submit])
        else
          (⟨false, false, some (msg.getD "Unknown error"), none, none⟩,
            [.submit])
    | .ticketOk tid phase =>
        let evs := [ExpoEvent.submit, .wait 1000, .pollReceipts]
        match phase with
        | .fetchThrew msg =>
            (⟨true, false, some msg, some tid, some "unknown"⟩, evs)
        | .noReceipt =>
            (⟨true, false, none, some tid, some "pending"⟩, evs)
        | .receipt status de msg =>
            if status == "error" then
              if de == some "DeviceNotRegistered" then
                (⟨false, true, some "DeviceNotRegistered", none, none⟩, evs)
              else
                (⟨false, false, some (msg.getD "Receipt error"), none, none⟩,
                  evs)
            else
              (⟨true, false, none, some tid, some status⟩, evs)

/-! Helper lemmas about the guard. -/

/-- After appending an entry for a key, the marker file for that key exists. -/
lemma guardFileExists_append_self (l : List (String × Nat)) (k : String)
    (t : Nat) : guardFileExists ⟨l ++ [(k, t)]⟩ k = true := by
  simp [guardFileExists]

/-- After deleting the entries of a key, the marker file no longer exists. -/
lemma guardFileExists_delete (g : GuardState) (k : String) :
    guardFileExists (guardDelete g k) k = false := by
  simp only [guardFileExists, guardDelete]
  rw [List.any_eq_false]
  intro f hf
  have hmem := List.mem_filter.mp hf
  have h2 := hmem.2
  simp only [bne_iff_ne, ne_eq] at h2
  simp [h2]

/-- C3: the claim asserts that a guard entry older than the one-hour expiry
window is treated as absent and the key re-accepted.  The marker-file
guard in src/server.js lines 1573-1592 tests bare file existence with no
age component, so a two-hour-old entry still rejects the key; the
repository documentation (replit.md) states that idempotency keys
auto-expire after one hour, which the code contradicts. -/
theorem guard_rejects_expired_entry :
    beginOperation ⟨[("stale-key", 0)]⟩ "stale-key" 7200000 =
      (.rejectedExists, ⟨[("stale-key", 0)]⟩) := rfl

/-- C4 counterexample: a run of handleCreateRequestAndPrayer that accepts
the idempotency key and then fails validation (requestText missing)
terminates without releasing the guard entry: the marker file for the key
is still present in the final state, refuting the claim that every
terminating path after acceptance releases the key. -/
theorem createRequest_failure_keeps_guard_entry :
    handleCreateRequestAndPrayer ⟨[]⟩
      ⟨"key1", some 1, none, some "Title", some "true"⟩
      ⟨5, true, true, some "Paul", some "prayer text", true, true, .sent⟩ =
      (.missingParam "requestText", ⟨[("key1", 5)]⟩) := rfl

/-- C4 amended: once the key is accepted (marker file written), the guard
entry is released only on the success path; on every definitive failure
path (missing required parameter, user not found, prayer-generation
failure, database error) the entry is left in place. -/
theorem createRequest_guard_released_only_on_success (g : GuardState)
    (p : CreateParams) (env : CreateEnv)
    (hfresh : guardFileExists g p.idempotencyKey = false)
    (hw : env.writeOk = true) :
    guardFileExists (handleCreateRequestAndPrayer g p env).2
        p.idempotencyKey =
      !createSucceeded (handleCreateRequestAndPrayer g p env).1 := by
  unfold handleCreateRequestAndPrayer beginOperation
  rw [hfresh, hw]
  simp only [Bool.false_eq_true, if_false, Bool.not_true, if_neg,
    Bool.false_eq_true, not_false_eq_true]
  by_cases h1 : jsTruthyNat p.userId = true
  case neg =>
    simp [h1, createSucceeded, guardFileExists_append_self]
  case pos =>
  by_cases h2 : jsTruthyStr p.requestText = true
  case neg =>
    simp [h1, h2, createSucceeded, guardFileExists_append_self]
  case pos =>
  by_cases h3 : jsTruthyStr p.requestTitle = true
  case neg =>
    simp [h1, h2, h3, createSucceeded, guardFileExists_append_self]
  case pos =>
  by_cases h4 : jsTruthyStr p.sendEmail = true
  case neg =>
    simp [h1, h2, h3, h4, createSucceeded, guardFileExists_append_self]
  case pos =>
  by_cases h5 : env.insertRequestOk = true
  case neg =>
    simp [h1, h2, h3, h4, h5, createSucceeded, guardFileExists_append_self]
  case pos =>
  cases h6 : env.userFound with
  | none =>
      simp [h1, h2, h3, h4, h5, h6, createSucceeded,
        guardFileExists_append_self]
  | some realName =>
  cases h7 : env.chatOk with
  | none =>
      simp [h1, h2, h3, h4, h5, h6, h7, createSucceeded,
        guardFileExists_append_self]
  | some prayer =>
  by_cases h8 : env.prayerInsertOk = true
  case neg =>
    simp [h1, h2, h3, h4, h5, h6, h7, h8, createSucceeded,
      guardFileExists_append_self]
  case pos =>
  by_cases h9 : env.updateOk = true
  case neg =>
    simp [h1, h2, h3, h4, h5, h6, h7, h8, h9, createSucceeded,
      guardFileExists_append_self]
  case pos =>
  simp [h1, h2, h3, h4, h5, h6, h7, h8, h9, createSucceeded,
    guardFileExists_delete]

/-- Witness for the amended C4 theorem at a concrete success run and its
hypotheses. -/
theorem createRequest_guard_released_only_on_success_witness :
    guardFileExists ⟨[]⟩ "key2" = false ∧
    guardFileExists
        ((handleCreateRequestAndPrayer ⟨[]⟩
          ⟨"key2", some 1, some "text", some "Title", some "true"⟩
          ⟨5, true, true, some "Paul", some "prayer text", true, true,
            .sent⟩).2) "key2" =
      !createSucceeded ((handleCreateRequestAndPrayer ⟨[]⟩
          ⟨"key2", some 1, some "text", some "Title", some "true"⟩
          ⟨5, true, true, some "Paul", some "prayer text", true, true,
            .sent⟩).1) :=
  ⟨rfl, createRequest_guard_released_only_on_success ⟨[]⟩
    ⟨"key2", some 1, some "text", some "Title", some "true"⟩
    ⟨5, true, true, some "Paul", some "prayer text", true, true, .sent⟩
    rfl rfl⟩

/-- C8: on a broadcast run over any list of per-recipient provider
outcomes, every recipient is attempted in order regardless of earlier
failures, the 600 millisecond delay separates every pair of consecutive
sends (after failed sends as well), and successCount plus failCount
equals the number of recipients. -/
theorem broadcast_throttle_and_counts (os : List Bool) :
    (sendBroadcastLoop os).2.1 + (sendBroadcastLoop os).2.2 = os.length ∧
    (sendBroadcastLoop os).1 =
      List.intersperse (.delay 600) (os.map .send) ∧
    ((sendBroadcastLoop os).1.countP isSendEvent) = os.length := by
  induction os with
  | nil => exact ⟨rfl, rfl, rfl⟩
  | cons o rest ih =>
    obtain ⟨ih1, ih2, ih3⟩ := ih
    cases rest with
    | nil =>
        cases o <;>
          simp [sendBroadcastLoop, List.intersperse, isSendEvent,
            List.countP_cons]
    | cons b l =>
        refine ⟨?_, ?_, ?_⟩
        · simp only [sendBroadcastLoop, List.isEmpty_cons,
            List.length_cons] at ih1 ⊢
          cases o <;> simp <;> omega
        · simp only [sendBroadcastLoop, List.isEmpty_cons, if_neg,
            Bool.false_eq_true, not_false_eq_true, List.map_cons,
            List.intersperse] at ih2 ⊢
          rw [← List.map_cons]
          exact congrArg _ (congrArg _ ih2)
        · simp only [sendBroadcastLoop, List.isEmpty_cons,
            Bool.false_eq_true, if_false, List.countP_cons, isSendEvent,
            List.length_cons] at ih3 ⊢
          rw [ih3]
          simp

/-- C9: the Expo push helper is two-phase: after an accepted submission
ticket it waits a fixed 1000 milliseconds and polls once for a receipt;
a missing receipt resolves as tentative success with receiptStatus
pending, a throwing receipt fetch resolves as tentative success, and a
receipt carrying the error status resolves as a failure. -/
theorem expo_receipt_two_phase_policy (tid : String) (phase : ExpoReceiptPhase)
    (de : Option String) (m : Option String) (msg : String) :
    (expoSendPushNotification true (.ticketOk tid phase)).2 =
      [ExpoEvent.submit, .wait 1000, .pollReceipts] ∧
    (expoSendPushNotification true (.ticketOk tid .noReceipt)).1.success =
      true ∧
    (expoSendPushNotification true
        (.ticketOk tid .noReceipt)).1.receiptStatus = some "pending" ∧
    (expoSendPushNotification true
        (.ticketOk tid (.fetchThrew msg))).1.success = true ∧
    (expoSendPushNotification true
        (.ticketOk tid (.receipt "error" de m))).1.success = false := by
  refine ⟨?_, rfl, rfl, rfl, ?_⟩
  · cases phase with
    | fetchThrew msg2 => rfl
    | noReceipt => rfl
    | receipt status de2 m2 =>
        simp only [expoSendPushNotification, Bool.not_true,
          Bool.false_eq_true, if_false]
        split <;> first | (split <;> rfl) | rfl | simp_all
  · simp only [expoSendPushNotification, Bool.not_true,
      Bool.false_eq_true, if_false]
    split <;> first | (split <;> rfl) | rfl | simp_all

/-- C10: every email built by mailerSendSingle carries a BCC to
programmerpauly@gmail.com exactly when the primary recipient is a
different address, and the BCC list is empty exactly when the primary
recipient is programmerpauly@gmail.com itself. -/
theorem mailerSendSingle_bcc_policy (template : String)
    (fromPerson toPerson : Person) (subject : String)
    (extra : Option String) (out : EmailProviderOutcome) :
    ((mailerSendSingle template fromPerson toPerson subject extra out).1.bcc =
        [] ↔ toPerson.email = "programmerpauly@gmail.com") ∧
    (toPerson.email = "programmerpauly@gmail.com" ∨
      (mailerSendSingle template fromPerson toPerson subject extra
          out).1.bcc =
        [⟨"programmerpauly@gmail.com", "Programmer Pauly"⟩]) := by
  unfold mailerSendSingle
  by_cases h : toPerson.email = "programmerpauly@gmail.com"
  · cases out <;> simp [h]
  · have hb : (toPerson.email == "programmerpauly@gmail.com") = false := by
      simp [h]
    cases out <;> simp [hb, h]

/-! Helper lemmas about the prayFor flow. -/

/-- Validation passes exactly on nonzero present parameters. -/
lemma prayFor_eq_core (db : DB) (env : PrayForEnv) (rid uid : Nat)
    (hr : rid ≠ 0) (hu : uid ≠ 0) :
    prayFor db env (some rid) (some uid) = prayForCore db env rid uid := by
  have h1 : jsTruthyNat (some rid) = true := by
    simpa [jsTruthyNat] using hr
  have h2 : jsTruthyNat (some uid) = true := by
    simpa [jsTruthyNat] using hu
  unfold prayFor
  rw [h1, h2]
  simp

/-- The notification phase never touches the user_request table. -/
lemma prayForNotify_userRequest (db1 : DB) (o : OwnerInfo) (uid : Nat)
    (env : PrayForEnv) :
    ((prayForNotify db1 o uid env).2.2).userRequest = db1.userRequest := by
  unfold prayForNotify eraseToken
  dsimp only
  split
  · split <;> rfl
  · rfl

/-- A duplicate pair makes the insert raise the unique violation and the
handler answer already-prayed with the store unchanged. -/
lemma prayForCore_dup (db : DB) (env : PrayForEnv) (rid uid : Nat)
    (hdup : pairExists db rid uid = true) :
    prayForCore db env rid uid = (.alreadyPrayed, db) := by
  unfold prayForCore insertUserRequest
  rw [hdup]
  simp

/-- The appended PrayerRecord row makes the pair exist. -/
lemma pairExists_append_self (db : DB) (rid uid ts : Nat) :
    pairExists
      { db with userRequest := db.userRequest ++ [⟨rid, uid, ts⟩] } rid
      uid = true := by
  simp [pairExists]

/-- An absent pair has zero PrayerRecord rows. -/
lemma countPair_eq_zero (db : DB) (rid uid : Nat)
    (h : pairExists db rid uid = false) : countPair db rid uid = 0 := by
  simp only [pairExists, List.any_eq_false] at h
  simp only [countPair, List.countP_eq_zero]
  intro a ha
  exact h a ha

/-- On a fresh pair with both referenced rows present, prayForCore answers
success and appends exactly the new PrayerRecord row. -/
lemma prayForCore_fresh (db : DB) (env : PrayForEnv) (rid uid : Nat)
    (hfresh : pairExists db rid uid = false)
    (hreq : requestExists db rid = true)
    (husr : userExists db uid = true) :
    (∃ e p, (prayForCore db env rid uid).1 = .success e p) ∧
    ((prayForCore db env rid uid).2).userRequest =
      db.userRequest ++ [⟨rid, uid, env.now⟩] := by
  have hins : insertUserRequest db rid uid env.now =
      .ok { db with userRequest := db.userRequest ++ [⟨rid, uid, env.now⟩] } := by
    unfold insertUserRequest
    rw [hfresh, hreq, husr]
    simp
  have hcore : prayForCore db env rid uid =
      prayForOk
        { db with userRequest := db.userRequest ++ [⟨rid, uid, env.now⟩] }
        env rid uid := by
    unfold prayForCore
    rw [hins]
  rw [hcore]
  unfold prayForOk
  cases howner : ownerLookup
      { db with userRequest := db.userRequest ++ [⟨rid, uid, env.now⟩] }
      rid with
  | none => exact ⟨⟨false, false, rfl⟩, rfl⟩
  | some o =>
      refine ⟨⟨_, _, rfl⟩, ?_⟩
      exact prayForNotify_userRequest _ o uid env

/-- Both calls of a same-pair sequential double submission, in one lemma:
the first answers success, the second answers already-prayed leaving the
store as the first left it, and the store holds exactly one row for the
pair after the first call. -/
lemma prayFor_twice_seq (db : DB) (env1 env2 : PrayForEnv) (rid uid : Nat)
    (hr : rid ≠ 0) (hu : uid ≠ 0)
    (hfresh : pairExists db rid uid = false)
    (hreq : requestExists db rid = true)
    (husr : userExists db uid = true) :
    (∃ e p, (prayFor db env1 (some rid) (some uid)).1 = .success e p) ∧
    (prayFor ((prayFor db env1 (some rid) (some uid)).2) env2 (some rid)
        (some uid)).1 = .alreadyPrayed ∧
    (prayFor ((prayFor db env1 (some rid) (some uid)).2) env2 (some rid)
        (some uid)).2 = (prayFor db env1 (some rid) (some uid)).2 ∧
    countPair ((prayFor db env1 (some rid) (some uid)).2) rid uid = 1 := by
  rw [prayFor_eq_core db env1 rid uid hr hu]
  obtain ⟨hsucc, hur⟩ := prayForCore_fresh db env1 rid uid hfresh hreq husr
  have hdup : pairExists (prayForCore db env1 rid uid).2 rid uid = true := by
    simp only [pairExists, hur]
    have := pairExists_append_self db rid uid env1.now
    simpa [pairExists] using this
  have hcount : countPair (prayForCore db env1 rid uid).2 rid uid = 1 := by
    simp only [countPair, hur, List.countP_append]
    have h0 : countPair db rid uid = 0 := countPair_eq_zero db rid uid hfresh
    simp only [countPair] at h0
    rw [h0]
    simp
  rw [prayFor_eq_core _ env2 rid uid hr hu,
    prayForCore_dup _ env2 rid uid hdup]
  exact ⟨hsucc, rfl, rfl, hcount⟩

/-! Concrete fixtures used by witnesses and counterexamples. -/

/-- Request owner fixture: wants emails and pushes, has a token. -/
def userJane : UserRow :=
  ⟨41, "Jane", some "jane@example.com", some "tokJane"⟩

/-- Praying user fixture. -/
def userBob : UserRow :=
  ⟨353, "Bob", some "bob@example.com", none⟩

/-- A store with one request (id 707, owned by user 41) and no
PrayerRecord rows. -/
def baseDB : DB :=
  ⟨[userJane, userBob],
   [⟨41, some true, some true⟩, ⟨353, some false, some false⟩],
   [⟨707, 41, "please pray", "Health"⟩],
   []⟩

/-- Environment in which both providers succeed. -/
def baseEnv : PrayForEnv :=
  ⟨100, true, .sent, .delivered⟩

/-- C2: calling prayFor twice sequentially with the same requestId and
userId answers success first and already-prayed second, with exactly one
PrayerRecord row for the pair afterwards; the duplicate is recognised
through the unique-violation branch of the handler, which is distinct
from the generic internal-error branch. -/
theorem prayFor_sequential_duplicate (db : DB) (env1 env2 : PrayForEnv)
    (rid uid : Nat) (hr : rid ≠ 0) (hu : uid ≠ 0)
    (hfresh : pairExists db rid uid = false)
    (hreq : requestExists db rid = true)
    (husr : userExists db uid = true) :
    (∃ e p, (prayFor db env1 (some rid) (some uid)).1 = .success e p) ∧
    (prayFor ((prayFor db env1 (some rid) (some uid)).2) env2 (some rid)
        (some uid)).1 = .alreadyPrayed ∧
    countPair ((prayFor ((prayFor db env1 (some rid) (some uid)).2) env2
        (some rid) (some uid)).2) rid uid = 1 := by
  obtain ⟨h1, h2, h3, h4⟩ :=
    prayFor_twice_seq db env1 env2 rid uid hr hu hfresh hreq husr
  exact ⟨h1, h2, by rw [h3]; exact h4⟩

/-- Witness for C2 at a concrete store and pair. -/
theorem prayFor_sequential_duplicate_witness :
    pairExists baseDB 707 353 = false ∧
    ((∃ e p,
        (prayFor baseDB baseEnv (some 707) (some 353)).1 = .success e p) ∧
      (prayFor ((prayFor baseDB baseEnv (some 707) (some 353)).2) baseEnv
          (some 707) (some 353)).1 = .alreadyPrayed ∧
      countPair ((prayFor ((prayFor baseDB baseEnv (some 707)
          (some 353)).2) baseEnv (some 707) (some 353)).2) 707 353 = 1) :=
  ⟨by decide,
    prayFor_sequential_duplicate baseDB baseEnv baseEnv 707 353
      (by decide) (by decide) (by decide) (by decide) (by decide)⟩

/-- C1: for any serialization order the store picks for the two atomic
inserts of two concurrent prayFor invocations on the same pair, exactly
one invocation answers success and the other answers already-prayed, and
exactly one PrayerRecord row for the pair exists afterwards; the decision
is made solely by the uniqueness constraint at the insert, with no
application-level locking in the handler. -/
theorem prayFor_concurrent_exactly_one_success (db : DB)
    (envA envB : PrayForEnv) (rid uid : Nat) (aFirst : Bool)
    (hr : rid ≠ 0) (hu : uid ≠ 0)
    (hfresh : pairExists db rid uid = false)
    (hreq : requestExists db rid = true)
    (husr : userExists db uid = true) :
    (((∃ e p, (runConcurrentPair db envA envB rid uid aFirst).1.1 =
          .success e p) ∧
        (runConcurrentPair db envA envB rid uid aFirst).1.2 =
          .alreadyPrayed) ∨
      ((runConcurrentPair db envA envB rid uid aFirst).1.1 =
          .alreadyPrayed ∧
        (∃ e p, (runConcurrentPair db envA envB rid uid aFirst).1.2 =
          .success e p))) ∧
    countPair (runConcurrentPair db envA envB rid uid aFirst).2 rid uid =
      1 := by
  cases aFirst with
  | true =>
      obtain ⟨h1, h2, h3, h4⟩ :=
        prayFor_twice_seq db envA envB rid uid hr hu hfresh hreq husr
      unfold runConcurrentPair
      simp only [if_pos]
      exact ⟨Or.inl ⟨h1, h2⟩, by rw [h3]; exact h4⟩
  | false =>
      obtain ⟨h1, h2, h3, h4⟩ :=
        prayFor_twice_seq db envB envA rid uid hr hu hfresh hreq husr
      unfold runConcurrentPair
      simp only [Bool.false_eq_true, if_false]
      exact ⟨Or.inr ⟨h2, h1⟩, by rw [h3]; exact h4⟩

/-- Witness for C1 at a concrete store, pair and serialization order. -/
theorem prayFor_concurrent_exactly_one_success_witness :
    requestExists baseDB 707 = true ∧
    ((((∃ e p, (runConcurrentPair baseDB baseEnv baseEnv 707 353
            false).1.1 = .success e p) ∧
        (runConcurrentPair baseDB baseEnv baseEnv 707 353 false).1.2 =
          .alreadyPrayed) ∨
      ((runConcurrentPair baseDB baseEnv baseEnv 707 353 false).1.1 =
          .alreadyPrayed ∧
        (∃ e p, (runConcurrentPair baseDB baseEnv baseEnv 707 353
            false).1.2 = .success e p))) ∧
      countPair (runConcurrentPair baseDB baseEnv baseEnv 707 353
        false).2 707 353 = 1) :=
  ⟨by decide,
    prayFor_concurrent_exactly_one_success baseDB baseEnv baseEnv 707 353
      false (by decide) (by decide) (by decide) (by decide) (by decide)⟩

/-- C5 counterexample: praying for a requestId that is not in the request
table inserts no PrayerRecord row, but the response is the generic 500
internal-error branch, not a distinct request-not-found result (the
handler has no such branch: only the 23505 unique violation is
special-cased, a foreign-key violation falls through to the 500 path). -/
theorem prayFor_missing_request_returns_500 :
    prayFor baseDB baseEnv (some 999) (some 353) =
      (.internalError, baseDB) ∧
    countPair baseDB 999 353 = 0 := by
  exact ⟨by decide, rfl⟩

/-- C5 amended: a prayFor call for a nonexistent requestId (with no
pre-existing row for the pair) leaves the store unchanged — so no
PrayerRecord is inserted — and returns the generic 500 internal error
rather than a request-not-found result. -/
theorem prayFor_missing_request_no_insert (db : DB) (env : PrayForEnv)
    (rid uid : Nat) (hr : rid ≠ 0) (hu : uid ≠ 0)
    (hnoreq : requestExists db rid = false)
    (hfresh : pairExists db rid uid = false) :
    prayFor db env (some rid) (some uid) = (.internalError, db) := by
  rw [prayFor_eq_core db env rid uid hr hu]
  unfold prayForCore insertUserRequest
  rw [hfresh, hnoreq]
  simp

/-- Witness for the amended C5 theorem at a concrete store. -/
theorem prayFor_missing_request_no_insert_witness :
    requestExists baseDB 888 = false ∧
    prayFor baseDB baseEnv (some 888) (some 41) =
      (.internalError, baseDB) :=
  ⟨by decide,
    prayFor_missing_request_no_insert baseDB baseEnv 888 41 (by decide)
      (by decide) (by decide) (by decide)⟩

/-! Lemmas about the notification phase, for C6 and C7. -/

/-- The FCM helper reports success exactly when Firebase is initialized,
a truthy token is at hand, and the provider accepted the message. -/
lemma sendPushNotification_error_eq (fi : Bool) (tok : Option String)
    (out : FcmOutcome) :
    ((sendPushNotification fi tok out).error == 0) =
      (fi && (jsTruthyStr tok && fcmDelivered out)) := by
  unfold sendPushNotification
  cases fi with
  | false => simp
  | true =>
    cases ht : jsTruthyStr tok with
    | false => simp [ht]
    | true =>
      cases out with
      | delivered => simp [ht, fcmDelivered]
      | thrown code msg =>
          simp only [ht, Bool.not_true, Bool.false_eq_true, if_false]
          split <;> simp [fcmDelivered]

/-- When attempted with Firebase initialized and a truthy token, the FCM
helper asks for token removal exactly on the two permanent error codes. -/
lemma sendPushNotification_srt (fi : Bool) (tok : Option String)
    (out : FcmOutcome) (hfi : fi = true) (ht : jsTruthyStr tok = true) :
    (sendPushNotification fi tok out).shouldRemoveToken =
      isPermanentFcm out := by
  subst hfi
  unfold sendPushNotification
  cases out <;> simp [ht, isPermanentFcm]
  split <;> simp_all

/-- The emailSent flag computed by the notification phase. -/
lemma prayForNotify_emailSent (db1 : DB) (o : OwnerInfo) (uid : Nat)
    (env : PrayForEnv) :
    (prayForNotify db1 o uid env).1 =
      ((jsTruthyOptBool o.prayerEmails && jsTruthyStr o.email) &&
        emailOk env.emailOutcome) := by
  unfold prayForNotify
  dsimp only
  cases hc : (jsTruthyOptBool o.prayerEmails && jsTruthyStr o.email) with
  | false => simp [hc]
  | true =>
      cases hE : env.emailOutcome <;>
        simp [hc, hE, mailerSendSingle, emailOk]

/-- The pushSent flag computed by the notification phase. -/
lemma prayForNotify_pushSent (db1 : DB) (o : OwnerInfo) (uid : Nat)
    (env : PrayForEnv) :
    (prayForNotify db1 o uid env).2.1 =
      (((o.pushNotifications != some false) && jsTruthyStr o.fcmToken) &&
        (env.firebaseInitialized && fcmDelivered env.pushOutcome)) := by
  unfold prayForNotify
  dsimp only
  cases hc : ((o.pushNotifications != some false) &&
      jsTruthyStr o.fcmToken) with
  | false => simp [hc]
  | true =>
      have hc2 := hc
      simp only [Bool.and_eq_true] at hc2
      have ht : jsTruthyStr o.fcmToken = true := hc2.2
      simp [hc, sendPushNotification_error_eq, ht]

/-- The store the notification phase leaves behind when the push is
attempted with Firebase initialized: the owner token is erased exactly on
a permanent FCM error. -/
lemma prayForNotify_db2 (db1 : DB) (o : OwnerInfo) (uid : Nat)
    (env : PrayForEnv)
    (hpn : (o.pushNotifications != some false) = true)
    (ht : jsTruthyStr o.fcmToken = true)
    (hfi : env.firebaseInitialized = true) :
    (prayForNotify db1 o uid env).2.2 =
      if isPermanentFcm env.pushOutcome then eraseToken db1 o.userId
      else db1 := by
  unfold prayForNotify
  dsimp only
  simp only [hpn, ht, Bool.and_self, if_true]
  rw [sendPushNotification_srt env.firebaseInitialized o.fcmToken
    env.pushOutcome hfi ht]

/-- A present enrichment row pins down the user row the requestOwner query
joined: it is found under the owner id and carries the owner fields. -/
lemma ownerLookup_some_user (db1 : DB) (rid : Nat) (o : OwnerInfo)
    (h : ownerLookup db1 rid = some o) :
    db1.users.find? (fun u => u.userId == o.userId) =
      some ⟨o.userId, o.realName, o.email, o.fcmToken⟩ := by
  cases hr2 : db1.requests.find? (fun r => r.requestId == rid) with
  | none =>
      have hnone : ownerLookup db1 rid = none := by
        unfold ownerLookup
        rw [hr2]
      rw [hnone] at h
      exact absurd h (by simp)
  | some r =>
      have hjoin : ownerJoin db1 r = some o := by
        rw [← h]
        unfold ownerLookup
        rw [hr2]
      cases hu2 : db1.users.find? (fun u => u.userId == r.userId) with
      | none =>
          have : (none : Option OwnerInfo) = some o := by
            rw [← hjoin]
            unfold ownerJoin
            rw [hu2]
          exact absurd this (by simp)
      | some u =>
          cases hs2 : db1.settings.find? (fun s => s.userId == r.userId) with
          | none =>
              have : (none : Option OwnerInfo) = some o := by
                rw [← hjoin]
                unfold ownerJoin
                rw [hu2, hs2]
              exact absurd this (by simp)
          | some s =>
              have hsome : some (⟨u.userId, u.realName, u.email, u.fcmToken,
                  r.requestText, s.prayerEmails, s.pushNotifications⟩ :
                    OwnerInfo) = some o := by
                rw [← hjoin]
                unfold ownerJoin
                rw [hu2, hs2]
              have ho := Option.some.inj hsome
              rw [← ho]
              dsimp only
              have hp := List.find?_some hu2
              have hpe : u.userId = r.userId := by simpa using hp
              have hfun : (fun x : UserRow => x.userId == u.userId) =
                  (fun x : UserRow => x.userId == r.userId) := by
                funext x
                rw [hpe]
              rw [hfun]
              exact hu2

/-- Erasing the token of a user commutes with looking the user up. -/
lemma find_eraseToken (l : List UserRow) (uid : Nat) :
    ((l.map (fun u => if u.userId == uid then { u with fcmToken := none }
        else u)).find? (fun u => u.userId == uid)) =
      (l.find? (fun u => u.userId == uid)).map
        (fun u => { u with fcmToken := none }) := by
  induction l with
  | nil => rfl
  | cons a l ih =>
      by_cases ha : (a.userId == uid) = true
      · simp [List.find?, ha]
      · have ha3 : (a.userId == uid) = false := by simpa using ha
        simpa [List.find?, ha3] using ih

/-- The fcm_token column of a user, when the user row exists. -/
def userTokenEntry (db : DB) (uid : Nat) : Option (Option String) :=
  (db.users.find? (fun u => u.userId == uid)).map (fun u => u.fcmToken)

/-- The emailSent flag C7 predicts: the email was attempted (owner row
present, wants emails, has an address) and the provider accepted it. -/
def emailAttempted (db : DB) (rid : Nat) : Bool :=
  match ownerLookup db rid with
  | some o => jsTruthyOptBool o.prayerEmails && jsTruthyStr o.email
  | none => false

/-- Whether the push channel is attempted for the request owner. -/
def pushAttempted (db : DB) (rid : Nat) : Bool :=
  match ownerLookup db rid with
  | some o => (o.pushNotifications != some false) && jsTruthyStr o.fcmToken
  | none => false

/-- C7: whenever the PrayerRecord insert succeeds, the response is the
success shape carrying the emailSent and pushSent booleans — emailSent
true exactly when the email was attempted and accepted, pushSent true
exactly when the push was attempted with Firebase up and accepted — and
the recorded prayer is never rolled back by a notification failure: the
user_request table is exactly what the insert left. -/
theorem prayFor_success_despite_notification_failure (db db1 : DB)
    (env : PrayForEnv) (rid uid : Nat) (hr : rid ≠ 0) (hu : uid ≠ 0)
    (hins : insertUserRequest db rid uid env.now = .ok db1) :
    (prayFor db env (some rid) (some uid)).1 =
      .success (emailAttempted db1 rid && emailOk env.emailOutcome)
        (pushAttempted db1 rid &&
          (env.firebaseInitialized && fcmDelivered env.pushOutcome)) ∧
    ((prayFor db env (some rid) (some uid)).2).userRequest =
      db1.userRequest := by
  rw [prayFor_eq_core db env rid uid hr hu]
  have hcore : prayForCore db env rid uid = prayForOk db1 env rid uid := by
    unfold prayForCore
    rw [hins]
  rw [hcore]
  unfold prayForOk emailAttempted pushAttempted
  cases howner : ownerLookup db1 rid with
  | none => exact ⟨rfl, rfl⟩
  | some o =>
      refine ⟨?_, ?_⟩
      · dsimp only
        rw [prayForNotify_emailSent db1 o uid env,
          prayForNotify_pushSent db1 o uid env]
      · dsimp only
        exact prayForNotify_userRequest db1 o uid env

/-- Witness for C7 at a concrete store with both providers failing
transiently: the response is still the success shape, with emailSent and
pushSent false, and the inserted row is kept. -/
theorem prayFor_success_despite_notification_failure_witness :
    insertUserRequest baseDB 707 353 100 =
      .ok { baseDB with userRequest := [⟨707, 353, 100⟩] } ∧
    ((prayFor baseDB ⟨100, true, .failed "provider down",
        .thrown "internal-error" "socket hang up"⟩ (some 707)
        (some 353)).1 =
      .success
        (emailAttempted { baseDB with userRequest := [⟨707, 353, 100⟩] }
            707 && emailOk (.failed "provider down"))
        (pushAttempted { baseDB with userRequest := [⟨707, 353, 100⟩] }
            707 &&
          (true && fcmDelivered (.thrown "internal-error"
            "socket hang up"))) ∧
      ((prayFor baseDB ⟨100, true, .failed "provider down",
          .thrown "internal-error" "socket hang up"⟩ (some 707)
          (some 353)).2).userRequest =
        [⟨707, 353, 100⟩]) :=
  ⟨rfl,
    prayFor_success_despite_notification_failure baseDB
      { baseDB with userRequest := [⟨707, 353, 100⟩] }
      ⟨100, true, .failed "provider down",
        .thrown "internal-error" "socket hang up"⟩ 707 353 (by decide)
      (by decide) rfl⟩

/-- C6: when the push is attempted during the prayer fan-out (owner wants
pushes, a token is on file, Firebase is up), the owner token ends erased
exactly when the provider reported one of the two permanent
invalid-registration-token codes; any transient error, and a delivered
push, leave the stored token untouched. -/
theorem prayFor_token_erasure_policy (db db1 : DB) (env : PrayForEnv)
    (rid uid : Nat) (o : OwnerInfo) (hr : rid ≠ 0) (hu : uid ≠ 0)
    (hins : insertUserRequest db rid uid env.now = .ok db1)
    (howner : ownerLookup db1 rid = some o)
    (hpn : (o.pushNotifications != some false) = true)
    (ht : jsTruthyStr o.fcmToken = true)
    (hfi : env.firebaseInitialized = true) :
    userTokenEntry ((prayFor db env (some rid) (some uid)).2) o.userId =
      some (if isPermanentFcm env.pushOutcome then none else o.fcmToken) := by
  rw [prayFor_eq_core db env rid uid hr hu]
  have hcore : prayForCore db env rid uid = prayForOk db1 env rid uid := by
    unfold prayForCore
    rw [hins]
  rw [hcore]
  unfold prayForOk
  rw [howner]
  dsimp only
  rw [prayForNotify_db2 db1 o uid env hpn ht hfi]
  have hfind := ownerLookup_some_user db1 rid o howner
  cases hperm : isPermanentFcm env.pushOutcome with
  | false =>
      simp only [hperm, Bool.false_eq_true, if_false]
      unfold userTokenEntry
      rw [hfind]
      rfl
  | true =>
      simp only [hperm, if_true]
      unfold userTokenEntry eraseToken
      dsimp only
      rw [find_eraseToken]
      rw [hfind]
      rfl

/-- Witness for C6 at a concrete store: the provider reports the token as
not registered, and the stored token ends erased. -/
theorem prayFor_token_erasure_policy_witness :
    ownerLookup { baseDB with userRequest := [⟨707, 353, 100⟩] } 707 =
      some ⟨41, "Jane", some "jane@example.com", some "tokJane",
        "please pray", some true, some true⟩ ∧
    userTokenEntry ((prayFor baseDB ⟨100, true, .sent,
        .thrown "messaging/registration-token-not-registered"
          "unregistered"⟩ (some 707) (some 353)).2) 41 =
      some (if isPermanentFcm (.thrown
          "messaging/registration-token-not-registered" "unregistered")
        then none else some "tokJane") :=
  ⟨by decide,
    prayFor_token_erasure_policy baseDB
      { baseDB with userRequest := [⟨707, 353, 100⟩] }
      ⟨100, true, .sent,
        .thrown "messaging/registration-token-not-registered"
          "unregistered"⟩ 707 353
      ⟨41, "Jane", some "jane@example.com", some "tokJane", "please pray",
        some true, some true⟩
      (by decide) (by decide) rfl (by decide) (by decide)
      (by decide) (by decide)⟩

end SCP
